import Mathlib

/-!
# go-sheet-api-v4-example: the spreadsheet client wrapper

A shallow embedding of `main.go`.  The program is a thin wrapper around the
Google Sheets v4 client library: every method builds one request, hands it to
the library and returns what the library returned.

Modelling choices.

* The remote service (and the library in front of it) is a parameter: a record
  `Service σ` of handlers over an arbitrary remote state `σ`.  Every `Do()` of
  the library appends the request it issued to a trace kept in the `World`, so
  that "what was sent, how often and in which order" can be stated.
* A Go `error` is `Option GoError` (`none` is `nil`).  A Go result pair such as
  `(int64, error)` is a Lean pair.
* Go strings are Lean strings; `int64` fields are `Int` (no arithmetic is done
  on them); `float64` fields are `Rat` (they are only stored, never computed
  with).
* A `[][]interface{}` that is handed through unchanged is
  `Option (List (List Iface))`, `none` being the nil slice.  Slices that are
  only iterated (`[]string`, `[]*Sheet`) are lists.
* Pointers built by the program itself (`&sheets.X{...}`) are `some`; pointer
  parameters of the methods are `Option`s, since a caller may pass `nil`.
-/

namespace SheetApi

/-! ## Values of the library (`google.golang.org/api/sheets/v4`) -/

/-- An `interface{}` cell value as the JSON layer produces and consumes it. -/
inductive Iface where
  | null
  | str (s : String)
  | num (q : Rat)
  | bool (b : Bool)
  deriving DecidableEq, Repr

/-- One row of cells, `[]interface{}`. -/
abbrev Row := List Iface

/-- A Go `error` value: one that came out of a library, the operating system or
the remote service, or one built locally by `fmt.Errorf`. -/
inductive GoError where
  | external (msg : String)
  | errorf (msg : String)
  deriving DecidableEq, Repr

/-- The library type `sheets.ValueRange`. -/
structure ValueRange where
  MajorDimension : String := ""
  Range : String := ""
  Values : Option (List Row) := none
  deriving DecidableEq, Repr

/-- The library type `sheets.GridRange` (zero-based, end-exclusive). -/
structure GridRange where
  SheetId : Int := 0
  StartRowIndex : Int := 0
  EndRowIndex : Int := 0
  StartColumnIndex : Int := 0
  EndColumnIndex : Int := 0
  deriving DecidableEq, Repr

/-- The library type `sheets.Color`. -/
structure Color where
  Red : Rat := 0
  Green : Rat := 0
  Blue : Rat := 0
  Alpha : Rat := 0
  deriving DecidableEq, Repr

/-- The library type `sheets.TextFormat` (the fields a caller most often sets). -/
structure TextFormat where
  Bold : Bool := false
  Italic : Bool := false
  FontSize : Int := 0
  FontFamily : String := ""
  ForegroundColor : Option Color := none
  deriving DecidableEq, Repr

/-- The library type `sheets.CellFormat`: a sparse description of formatting. -/
structure CellFormat where
  BackgroundColor : Option Color := none
  HorizontalAlignment : String := ""
  VerticalAlignment : String := ""
  WrapStrategy : String := ""
  TextFormat : Option TextFormat := none
  deriving DecidableEq, Repr

/-- The library type `sheets.ConditionValue`. -/
structure ConditionValue where
  RelativeDate : String := ""
  UserEnteredValue : String := ""
  deriving DecidableEq, Repr

/-- The library type `sheets.BooleanCondition`. -/
structure BooleanCondition where
  Type_ : String := ""
  Values : List ConditionValue := []
  deriving DecidableEq, Repr

/-- The library type `sheets.DataValidationRule`. -/
structure DataValidationRule where
  Condition : Option BooleanCondition := none
  InputMessage : String := ""
  ShowCustomUi : Bool := false
  Strict : Bool := false
  deriving DecidableEq, Repr

/-- The library type `sheets.CellData` (the fields a write request can carry). -/
structure CellData where
  UserEnteredFormat : Option CellFormat := none
  DataValidation : Option DataValidationRule := none
  Note : String := ""
  deriving DecidableEq, Repr

/-- The library type `sheets.RepeatCellRequest`. -/
structure RepeatCellRequest where
  Cell : Option CellData := none
  Fields : String := ""
  Range : Option GridRange := none
  deriving DecidableEq, Repr

/-- The library type `sheets.SetDataValidationRequest`. -/
structure SetDataValidationRequest where
  Range : Option GridRange := none
  Rule : Option DataValidationRule := none
  deriving DecidableEq, Repr

/-- The library type `sheets.Request`: one kind of update, the field of that
kind set and all the others nil.  Two of the kinds are kept. -/
structure Request where
  RepeatCell : Option RepeatCellRequest := none
  SetDataValidation : Option SetDataValidationRequest := none
  deriving DecidableEq, Repr

/-- The library type `sheets.BatchUpdateSpreadsheetRequest`. -/
structure BatchUpdateSpreadsheetRequest where
  Requests : List Request := []
  deriving DecidableEq, Repr

/-- The library type `sheets.SheetProperties`. -/
structure SheetProperties where
  SheetId : Int := 0
  Title : String := ""
  Index : Int := 0
  deriving DecidableEq, Repr

/-- The library type `sheets.Sheet`; its `Properties` pointer is taken to be
set, as it is in every sheet the service returns. -/
structure Sheet where
  Properties : SheetProperties
  deriving DecidableEq, Repr

/-- The library type `sheets.Spreadsheet`, as returned by the metadata get. -/
structure Spreadsheet where
  SpreadsheetId : String := ""
  Sheets : List Sheet := []
  deriving DecidableEq, Repr

/-! ## The remote layer -/

/-- One request as the library sends it: the call, its path arguments, its body
and its URL options (`none` when the option was not set). -/
inductive Call where
  | ValuesGet (spreadsheetId range : String)
  | ValuesUpdate (spreadsheetId range : String) (body : ValueRange)
      (valueInputOption : Option String)
  | ValuesAppend (spreadsheetId range : String) (body : ValueRange)
      (valueInputOption insertDataOption : Option String)
  | BatchUpdate (spreadsheetId : String) (body : BatchUpdateSpreadsheetRequest)
  | SpreadsheetsGet (spreadsheetId : String)
  deriving DecidableEq, Repr

/-- The library type `jwt.Config`, the parsed service-account credential. -/
structure JWTConfig where
  Email : String := ""
  PrivateKey : List Nat := []
  Scopes : List String := []
  TokenURL : String := ""
  deriving DecidableEq, Repr

/-- The `*http.Client` that `jwt.Client(ctx)` derives from a configuration. -/
structure HTTPClient where
  config : JWTConfig
  deriving DecidableEq, Repr

/-- Everything observable the program does, in order. -/
inductive Event where
  | ReadFile (filename : String)
  | JWTConfigFromJSON (jsonKey : List Nat) (scope : List String)
  | SheetsNew (client : HTTPClient)
  | Do (call : Call)
  | Println (row : Row)
  deriving DecidableEq, Repr

/-- The handlers behind `*sheets.Service`: what each call answers in a remote
state, and the state it leaves.  The bodies of the update, append and batch
update responses are dropped by the program and so are not modelled. -/
structure Service (σ : Type) where
  valuesGet : σ → String → String → Except GoError ValueRange × σ
  valuesUpdate : σ → String → String → ValueRange → Option String → Except GoError Unit × σ
  valuesAppend :
    σ → String → String → ValueRange → Option String → Option String → Except GoError Unit × σ
  batchUpdate : σ → String → BatchUpdateSpreadsheetRequest → Except GoError Unit × σ
  spreadsheetsGet : σ → String → Except GoError Spreadsheet × σ

/-- The remote state together with the trace of what the program did so far. -/
structure World (σ : Type) where
  remote : σ
  trace : List Event

/-- Record one event. -/
def World.emit {σ : Type} (w : World σ) (e : Event) : World σ :=
  { w with trace := w.trace ++ [e] }

/-- Run one handler: `Do()` sends the call, the remote state moves on. -/
def World.send {σ α : Type} (w : World σ) (c : Call) (h : σ → Except GoError α × σ) :
    Except GoError α × World σ :=
  ((h w.remote).1, { remote := (h w.remote).2, trace := w.trace ++ [Event.Do c] })

/-- The call `srv.Spreadsheets.Values.Get(id, range).Do()`. -/
def Service.DoValuesGet {σ : Type} (srv : Service σ) (spreadsheetId range : String)
    (w : World σ) : Except GoError ValueRange × World σ :=
  w.send (Call.ValuesGet spreadsheetId range) (fun st => srv.valuesGet st spreadsheetId range)

/-- The call `srv.Spreadsheets.Values.Update(id, range, body)` with its options, then `Do()`. -/
def Service.DoValuesUpdate {σ : Type} (srv : Service σ) (spreadsheetId range : String)
    (body : ValueRange) (valueInputOption : Option String) (w : World σ) :
    Except GoError Unit × World σ :=
  w.send (Call.ValuesUpdate spreadsheetId range body valueInputOption)
    (fun st => srv.valuesUpdate st spreadsheetId range body valueInputOption)

/-- The call `srv.Spreadsheets.Values.Append(id, range, body)` with its options, then `Do()`. -/
def Service.DoValuesAppend {σ : Type} (srv : Service σ) (spreadsheetId range : String)
    (body : ValueRange) (valueInputOption insertDataOption : Option String) (w : World σ) :
    Except GoError Unit × World σ :=
  w.send (Call.ValuesAppend spreadsheetId range body valueInputOption insertDataOption)
    (fun st => srv.valuesAppend st spreadsheetId range body valueInputOption insertDataOption)

/-- The call `srv.Spreadsheets.BatchUpdate(id, body).Do()`. -/
def Service.DoBatchUpdate {σ : Type} (srv : Service σ) (spreadsheetId : String)
    (body : BatchUpdateSpreadsheetRequest) (w : World σ) : Except GoError Unit × World σ :=
  w.send (Call.BatchUpdate spreadsheetId body) (fun st => srv.batchUpdate st spreadsheetId body)

/-- The call `srv.Spreadsheets.Get(id).Do()`. -/
def Service.DoSpreadsheetsGet {σ : Type} (srv : Service σ) (spreadsheetId : String)
    (w : World σ) : Except GoError Spreadsheet × World σ :=
  w.send (Call.SpreadsheetsGet spreadsheetId) (fun st => srv.spreadsheetsGet st spreadsheetId)

/-! ## The program -/

/-- The Go struct `SheetClient`. -/
structure SheetClient (σ : Type) where
  srv : Service σ
  spreadsheetID : String

/-- What the program reaches outside the remote service: the file system, the
credential parser, the session constructor and the process environment. -/
structure Env (σ : Type) where
  ReadFile : String → Except GoError (List Nat)
  JWTConfigFromJSON : List Nat → List String → Except GoError JWTConfig
  sheetsNew : HTTPClient → Except GoError (Service σ)
  Getenv : String → String

/-- The method `jwt.Client(ctx)`: no request is made here, the client fetches
tokens when it is first used. -/
def JWTConfig.Client (jwt : JWTConfig) : HTTPClient :=
  { config := jwt }

/-- The Go function `NewSheetClient` (the context argument carries no data). -/
def NewSheetClient {σ : Type} (env : Env σ) (spreadsheetID : String) (w : World σ) :
    (Option (SheetClient σ) × Option GoError) × World σ :=
  let w1 := w.emit (Event.ReadFile "secret.json")
  match env.ReadFile "secret.json" with
  | .error err => ((none, some err), w1)
  | .ok b =>
    let scope := ["https://www.googleapis.com/auth/spreadsheets"]
    let w2 := w1.emit (Event.JWTConfigFromJSON b scope)
    match env.JWTConfigFromJSON b scope with
    | .error err => ((none, some err), w2)
    | .ok jwt =>
      let w3 := w2.emit (Event.SheetsNew jwt.Client)
      match env.sheetsNew jwt.Client with
      | .error err => ((none, some err), w3)
      | .ok srv => ((some { srv := srv, spreadsheetID := spreadsheetID }, none), w3)

/-- The Go method `SheetClient.Get`. -/
def SheetClient.Get {σ : Type} (s : SheetClient σ) (range_ : String) (w : World σ) :
    (Option (List Row) × Option GoError) × World σ :=
  match s.srv.DoValuesGet s.spreadsheetID range_ w with
  | (.error err, w1) => ((none, some err), w1)
  | (.ok resp, w1) => ((resp.Values, none), w1)

/-- The Go method `SheetClient.Update`. -/
def SheetClient.Update {σ : Type} (s : SheetClient σ) (range_ : String)
    (values : Option (List Row)) (w : World σ) : Option GoError × World σ :=
  match s.srv.DoValuesUpdate s.spreadsheetID range_ { Values := values }
      (some "USER_ENTERED") w with
  | (.error err, w1) => (some err, w1)
  | (.ok _, w1) => (none, w1)

/-- The Go method `SheetClient.Format`. -/
def SheetClient.Format {σ : Type} (s : SheetClient σ) (range_ : Option GridRange)
    (format : Option CellFormat) (w : World σ) : Option GoError × World σ :=
  match s.srv.DoBatchUpdate s.spreadsheetID
      { Requests := [
          { RepeatCell := some
              { Fields := "userEnteredFormat(backgroundColor)"
                Range := range_
                Cell := some { UserEnteredFormat := format } } } ] } w with
  | (.error err, w1) => (some err, w1)
  | (.ok _, w1) => (none, w1)

/-- The loop of `SheetClient.SheetID`: the id of the first sheet whose title is
`sheetName`, `none` when the loop runs to its end. -/
def SheetID.scan (sheetName : String) : List Sheet → Option Int
  | [] => none
  | sheet :: rest =>
    if sheet.Properties.Title = sheetName then some sheet.Properties.SheetId
    else SheetID.scan sheetName rest

/-- The Go method `SheetClient.SheetID`. -/
def SheetClient.SheetID {σ : Type} (s : SheetClient σ) (sheetName : String) (w : World σ) :
    (Int × Option GoError) × World σ :=
  match s.srv.DoSpreadsheetsGet s.spreadsheetID w with
  | (.error err, w1) => ((0, some err), w1)
  | (.ok resp, w1) =>
    match SheetID.scan sheetName resp.Sheets with
    | some id => ((id, none), w1)
    | none => ((0, some (GoError.errorf ("sheetName " ++ sheetName ++ " is not found"))), w1)

/-- The Go method `SheetClient.Append`. -/
def SheetClient.Append {σ : Type} (s : SheetClient σ) (values : Option (List Row))
    (w : World σ) : Option GoError × World σ :=
  match s.srv.DoValuesAppend s.spreadsheetID "シート1" { Values := values }
      (some "USER_ENTERED") (some "INSERT_ROWS") w with
  | (.error err, w1) => (some err, w1)
  | (.ok _, w1) => (none, w1)

/-- The first loop of `SheetClient.List`: starting from the empty slice, one
condition value is appended for each string, in order. -/
def ListConditionValues (values : List String) : List ConditionValue :=
  values.foldl (fun conditionValues value => conditionValues ++ [{ UserEnteredValue := value }]) []

/-- The Go method `SheetClient.List`. -/
def SheetClient.List {σ : Type} (s : SheetClient σ) (range_ : Option GridRange)
    (values : List String) (w : World σ) : Option GoError × World σ :=
  match s.srv.DoBatchUpdate s.spreadsheetID
      { Requests := [
          { RepeatCell := some
              { Fields := "dataValidation"
                Range := range_
                Cell := some
                  { DataValidation := some
                      { Condition := some
                          { Type_ := "ONE_OF_LIST"
                            Values := ListConditionValues values }
                        ShowCustomUi := true
                        Strict := true } } } } ] } w with
  | (.error err, w1) => (some err, w1)
  | (.ok _, w1) => (none, w1)

/-- What a `panic` carries: the error handed to `panic(err)`, or the runtime
error of a nil pointer dereference. -/
inductive PanicValue where
  | error (err : GoError)
  | nilDereference
  deriving DecidableEq, Repr

/-- The loop `for _, row := range values { fmt.Println(row) }`. -/
def printRows {σ : Type} (values : Option (List Row)) (w : World σ) : World σ :=
  (values.getD []).foldl (fun acc row => acc.emit (Event.Println row)) w

/-- The grid range literal that `main` builds twice, around the looked-up id. -/
def mainRange (sheetID : Int) : GridRange :=
  { SheetId := sheetID
    StartColumnIndex := 1
    StartRowIndex := 2
    EndColumnIndex := 3
    EndRowIndex := 4 }

/-- The Go function `main`: `none` when it returns, the panic value when it
panics, and the world it leaves.  The error of the `Get` call is assigned and
never looked at, as in the source. -/
def main {σ : Type} (env : Env σ) (w : World σ) : Option PanicValue × World σ :=
  match NewSheetClient env (env.Getenv "SPREAD_SHEET_ID") w with
  | ((_, some err), w1) => (some (PanicValue.error err), w1)
  | ((none, none), w1) => (some PanicValue.nilDereference, w1)
  | ((some client, none), w1) =>
    match client.SheetID "シート1" w1 with
    | ((_, some err), w2) => (some (PanicValue.error err), w2)
    | ((sheetID, none), w2) =>
      match client.Update "A1"
          (some [[Iface.str "aaa", Iface.str "bbb"], [Iface.str "ccc", Iface.str "ddd"]]) w2 with
      | (some err, w3) => (some (PanicValue.error err), w3)
      | (none, w3) =>
        match client.Append (some [[Iface.str "1"]]) w3 with
        | (some err, w4) => (some (PanicValue.error err), w4)
        | (none, w4) =>
          match client.Format (some (mainRange sheetID))
              (some { BackgroundColor := some { Red := 1 } }) w4 with
          | (some err, w5) => (some (PanicValue.error err), w5)
          | (none, w5) =>
            match client.Get "'シート1'!A1:B1" w5 with
            | ((values, _), w6) =>
              match client.List (some (mainRange sheetID)) ["○", "×"] (printRows values w6) with
              | (some err, w7) => (some (PanicValue.error err), w7)
              | (none, w7) => (none, w7)

/-! ## Remote models used as concrete inputs -/

/-- A remote without state that answers every call with a fixed response. -/
def cannedService (metadata : Except GoError Spreadsheet) (get : Except GoError ValueRange)
    (update append batch : Except GoError Unit) : Service Unit :=
  { valuesGet := fun _ _ _ => (get, ())
    valuesUpdate := fun _ _ _ _ _ => (update, ())
    valuesAppend := fun _ _ _ _ _ _ => (append, ())
    batchUpdate := fun _ _ _ => (batch, ())
    spreadsheetsGet := fun _ _ => (metadata, ()) }

/-- The world before the program has done anything, over the stateless remote. -/
def emptyWorld : World Unit :=
  { remote := (), trace := [] }

/-- A spreadsheet whose sheets are "Sheet1" (id 0) and "Sheet2" (id 7). -/
def twoSheets : Spreadsheet :=
  { SpreadsheetId := "book"
    Sheets := [
      { Properties := { SheetId := 0, Title := "Sheet1", Index := 0 } },
      { Properties := { SheetId := 7, Title := "Sheet2", Index := 1 } } ] }

/-- A client of the stateless remote that serves `twoSheets`. -/
def twoSheetsClient : SheetClient Unit :=
  { srv := cannedService (.ok twoSheets) (.ok {}) (.ok ()) (.ok ()) (.ok ())
    spreadsheetID := "book" }

/-- A spreadsheet whose one sheet is "シート1", with id 0. -/
def oneSheet : Spreadsheet :=
  { SpreadsheetId := "book"
    Sheets := [{ Properties := { SheetId := 0, Title := "シート1", Index := 0 } }] }

/-- An environment in which the credential file reads and parses, the session
opens on `srv`, and the spreadsheet identifier is "book". -/
def readyEnv {σ : Type} (srv : Service σ) : Env σ :=
  { ReadFile := fun _ => .ok [123, 125]
    JWTConfigFromJSON := fun b scope => .ok { PrivateKey := b, Scopes := scope }
    sheetsNew := fun _ => .ok srv
    Getenv := fun name => if name = "SPREAD_SHEET_ID" then "book" else "" }

/-- A remote on which every call succeeds except the values get. -/
def getFailsService : Service Unit :=
  cannedService (.ok oneSheet) (.error (GoError.external "values get refused"))
    (.ok ()) (.ok ()) (.ok ())

/-- A remote on which every call succeeds; the values get answers one row. -/
def allOkService : Service Unit :=
  cannedService (.ok oneSheet) (.ok { Values := some [[Iface.str "aaa", Iface.str "bbb"]] })
    (.ok ()) (.ok ()) (.ok ())

/-- An environment without a credential file. -/
def noSecretEnv : Env Unit :=
  { ReadFile := fun _ => .error (GoError.external "open secret.json: no such file or directory")
    JWTConfigFromJSON := fun b scope => .ok { PrivateKey := b, Scopes := scope }
    sheetsNew := fun _ => .ok allOkService
    Getenv := fun _ => "" }

/-- A remote that keeps, for each spreadsheet and range string, the rows last
written there: an update replaces them, a get returns them as they are, and an
append with the option INSERT_ROWS puts the new rows after the ones present. -/
def keyedStore : Service (String → String → Option (List Row)) :=
  { valuesGet := fun st id range => (.ok { Range := range, Values := st id range }, st)
    valuesUpdate := fun st id range body _ =>
      (.ok (), fun i r => if i = id ∧ r = range then body.Values else st i r)
    valuesAppend := fun st id range body _ insertDataOption =>
      if insertDataOption = some "INSERT_ROWS" then
        (.ok (), fun i r =>
          if i = id ∧ r = range then some ((st i r).getD [] ++ body.Values.getD []) else st i r)
      else (.error (GoError.external "insertDataOption not supported"), st)
    batchUpdate := fun st _ _ => (.ok (), st)
    spreadsheetsGet := fun st id => (.ok { SpreadsheetId := id }, st) }

/-- The rows the keyed store holds for a spreadsheet and a range string. -/
def keyedRows (st : String → String → Option (List Row)) (id range : String) : List Row :=
  (st id range).getD []

/-- A client of the keyed store. -/
def keyedClient : SheetClient (String → String → Option (List Row)) :=
  { srv := keyedStore, spreadsheetID := "book" }

/-- A keyed store in which the sheet "シート1" of "book" holds two rows. -/
def keyedWorld : World (String → String → Option (List Row)) :=
  { remote := fun i r =>
      if i = "book" ∧ r = "シート1" then some [[Iface.str "a"], [Iface.str "b"]] else none
    trace := [] }

/-- The body of the batch update that `Format` builds. -/
def formatBody (range_ : Option GridRange) (format : Option CellFormat) :
    BatchUpdateSpreadsheetRequest :=
  { Requests := [
      { RepeatCell := some
          { Fields := "userEnteredFormat(backgroundColor)"
            Range := range_
            Cell := some { UserEnteredFormat := format } } } ] }

/-- The body of the batch update that `List` builds, around given condition values. -/
def listBody (range_ : Option GridRange) (conditionValues : List ConditionValue) :
    BatchUpdateSpreadsheetRequest :=
  { Requests := [
      { RepeatCell := some
          { Fields := "dataValidation"
            Range := range_
            Cell := some
              { DataValidation := some
                  { Condition := some { Type_ := "ONE_OF_LIST", Values := conditionValues }
                    ShowCustomUi := true
                    Strict := true } } } } ] }

/-- The remote is a store: a values get that follows a successful values update
of the same range answers the rows that were written, as they were written. -/
def StoreLaw {σ : Type} (srv : Service σ) : Prop :=
  ∀ st id range body opt, (srv.valuesUpdate st id range body opt).1 = Except.ok () →
    ∃ resp, (srv.valuesGet (srv.valuesUpdate st id range body opt).2 id range).1 = Except.ok resp ∧
      resp.Values = body.Values

/-- The remote appends: after a successful values append with the option
INSERT_ROWS, the rows of the target (as `rowsOf` reads them off the remote
state) are the rows that were there followed by the rows sent. -/
def InsertRowsLaw {σ : Type} (srv : Service σ) (rowsOf : σ → String → String → List Row) : Prop :=
  ∀ st id range body opt,
    (srv.valuesAppend st id range body opt (some "INSERT_ROWS")).1 = Except.ok () →
    rowsOf (srv.valuesAppend st id range body opt (some "INSERT_ROWS")).2 id range =
      rowsOf st id range ++ body.Values.getD []

/-! ## What each method sends -/

theorem Get_run {σ : Type} (s : SheetClient σ) (r : String) (w : World σ) :
    (s.Get r w).2 =
      { remote := (s.srv.valuesGet w.remote s.spreadsheetID r).2
        trace := w.trace ++ [Event.Do (Call.ValuesGet s.spreadsheetID r)] } ∧
    (s.Get r w).1 =
      match (s.srv.valuesGet w.remote s.spreadsheetID r).1 with
      | .error err => (none, some err)
      | .ok resp => (resp.Values, none) := by
  simp only [SheetClient.Get, Service.DoValuesGet, World.send]
  cases (s.srv.valuesGet w.remote s.spreadsheetID r).1 <;> exact ⟨rfl, rfl⟩

theorem Update_run {σ : Type} (s : SheetClient σ) (r : String) (vs : Option (List Row))
    (w : World σ) :
    (s.Update r vs w).2 =
      { remote :=
          (s.srv.valuesUpdate w.remote s.spreadsheetID r { Values := vs } (some "USER_ENTERED")).2
        trace := w.trace ++
          [Event.Do (Call.ValuesUpdate s.spreadsheetID r { Values := vs } (some "USER_ENTERED"))] } ∧
    (s.Update r vs w).1 =
      match (s.srv.valuesUpdate w.remote s.spreadsheetID r { Values := vs }
          (some "USER_ENTERED")).1 with
      | .error err => some err
      | .ok _ => none := by
  simp only [SheetClient.Update, Service.DoValuesUpdate, World.send]
  cases (s.srv.valuesUpdate w.remote s.spreadsheetID r { Values := vs }
    (some "USER_ENTERED")).1 <;> exact ⟨rfl, rfl⟩

theorem Append_run {σ : Type} (s : SheetClient σ) (vs : Option (List Row)) (w : World σ) :
    (s.Append vs w).2 =
      { remote :=
          (s.srv.valuesAppend w.remote s.spreadsheetID "シート1" { Values := vs }
            (some "USER_ENTERED") (some "INSERT_ROWS")).2
        trace := w.trace ++
          [Event.Do (Call.ValuesAppend s.spreadsheetID "シート1" { Values := vs }
            (some "USER_ENTERED") (some "INSERT_ROWS"))] } ∧
    (s.Append vs w).1 =
      match (s.srv.valuesAppend w.remote s.spreadsheetID "シート1" { Values := vs }
          (some "USER_ENTERED") (some "INSERT_ROWS")).1 with
      | .error err => some err
      | .ok _ => none := by
  simp only [SheetClient.Append, Service.DoValuesAppend, World.send]
  cases (s.srv.valuesAppend w.remote s.spreadsheetID "シート1" { Values := vs }
    (some "USER_ENTERED") (some "INSERT_ROWS")).1 <;> exact ⟨rfl, rfl⟩

theorem Format_run {σ : Type} (s : SheetClient σ) (r : Option GridRange) (f : Option CellFormat)
    (w : World σ) :
    (s.Format r f w).2 =
      { remote := (s.srv.batchUpdate w.remote s.spreadsheetID (formatBody r f)).2
        trace := w.trace ++ [Event.Do (Call.BatchUpdate s.spreadsheetID (formatBody r f))] } ∧
    (s.Format r f w).1 =
      match (s.srv.batchUpdate w.remote s.spreadsheetID (formatBody r f)).1 with
      | .error err => some err
      | .ok _ => none := by
  simp only [SheetClient.Format, Service.DoBatchUpdate, World.send, formatBody]
  cases (s.srv.batchUpdate w.remote s.spreadsheetID _).1 <;> exact ⟨rfl, rfl⟩

theorem List_run {σ : Type} (s : SheetClient σ) (r : Option GridRange) (vs : List String)
    (w : World σ) :
    (s.List r vs w).2 =
      { remote :=
          (s.srv.batchUpdate w.remote s.spreadsheetID (listBody r (ListConditionValues vs))).2
        trace := w.trace ++
          [Event.Do (Call.BatchUpdate s.spreadsheetID (listBody r (ListConditionValues vs)))] } ∧
    (s.List r vs w).1 =
      match (s.srv.batchUpdate w.remote s.spreadsheetID
          (listBody r (ListConditionValues vs))).1 with
      | .error err => some err
      | .ok _ => none := by
  simp only [SheetClient.List, Service.DoBatchUpdate, World.send, listBody]
  cases (s.srv.batchUpdate w.remote s.spreadsheetID _).1 <;> exact ⟨rfl, rfl⟩

theorem SheetID_run {σ : Type} (s : SheetClient σ) (n : String) (w : World σ) :
    (s.SheetID n w).2 =
      { remote := (s.srv.spreadsheetsGet w.remote s.spreadsheetID).2
        trace := w.trace ++ [Event.Do (Call.SpreadsheetsGet s.spreadsheetID)] } ∧
    (s.SheetID n w).1 =
      match (s.srv.spreadsheetsGet w.remote s.spreadsheetID).1 with
      | .error err => (0, some err)
      | .ok resp =>
        match SheetID.scan n resp.Sheets with
        | some id => (id, none)
        | none => (0, some (GoError.errorf ("sheetName " ++ n ++ " is not found"))) := by
  simp only [SheetClient.SheetID, Service.DoSpreadsheetsGet, World.send]
  cases (s.srv.spreadsheetsGet w.remote s.spreadsheetID).1 with
  | error err => exact ⟨rfl, rfl⟩
  | ok resp =>
    dsimp only
    cases SheetID.scan n resp.Sheets <;> exact ⟨rfl, rfl⟩

theorem conditionValues_eq_map (vs : List String) :
    ListConditionValues vs = vs.map (fun v => ({ UserEnteredValue := v } : ConditionValue)) := by
  have hgen : ∀ (acc : List ConditionValue) (l : List String),
      l.foldl (fun conditionValues value =>
          conditionValues ++ [({ UserEnteredValue := value } : ConditionValue)]) acc =
        acc ++ l.map (fun v => ({ UserEnteredValue := v } : ConditionValue)) := by
    intro acc l
    induction l generalizing acc with
    | nil => simp
    | cons v rest ih => simp [List.foldl, ih]
  simpa [ListConditionValues] using hgen [] vs

theorem keyedStore_store : StoreLaw keyedStore := by
  intro st id range body opt _
  exact ⟨{ Range := range, Values := body.Values }, by simp [keyedStore], rfl⟩

theorem keyedStore_insertRows : InsertRowsLaw keyedStore keyedRows := by
  intro st id range body opt _
  simp [keyedStore, keyedRows]

theorem NewSheetClient_client {σ : Type} (env : Env σ) (id : String) (w : World σ)
    (client : SheetClient σ) (hnew : (NewSheetClient env id w).1.1 = some client) :
    ∃ b jwt, env.ReadFile "secret.json" = Except.ok b ∧
      env.JWTConfigFromJSON b ["https://www.googleapis.com/auth/spreadsheets"] = Except.ok jwt ∧
      env.sheetsNew jwt.Client = Except.ok client.srv ∧
      client.spreadsheetID = id ∧
      (NewSheetClient env id w).1.2 = none ∧
      (NewSheetClient env id w).2 =
        { remote := w.remote
          trace := w.trace ++
            [Event.ReadFile "secret.json",
             Event.JWTConfigFromJSON b ["https://www.googleapis.com/auth/spreadsheets"],
             Event.SheetsNew jwt.Client] } := by
  unfold NewSheetClient at hnew ⊢
  cases hread : env.ReadFile "secret.json" with
  | error err => simp [hread] at hnew
  | ok b =>
    cases hjwt : env.JWTConfigFromJSON b ["https://www.googleapis.com/auth/spreadsheets"] with
    | error err => simp [hread, hjwt] at hnew
    | ok jwt =>
      cases hsrv : env.sheetsNew jwt.Client with
      | error err => simp [hread, hjwt, hsrv] at hnew
      | ok srv =>
        simp only [hread, hjwt, hsrv, Option.some.injEq] at hnew
        subst hnew
        exact ⟨b, jwt, rfl, hjwt, hsrv, rfl, by simp [hjwt, hsrv], by simp [hjwt, hsrv, World.emit]⟩

theorem printRows_run {σ : Type} (values : Option (List Row)) (w : World σ) :
    printRows values w =
      { remote := w.remote, trace := w.trace ++ (values.getD []).map Event.Println } := by
  have hgen : ∀ (rows : List Row) (v : World σ),
      rows.foldl (fun acc row => acc.emit (Event.Println row)) v =
        { remote := v.remote, trace := v.trace ++ rows.map Event.Println } := by
    intro rows
    induction rows with
    | nil => intro v; simp
    | cons row rest ih =>
      intro v
      rw [List.foldl, ih]
      simp [World.emit]
  exact hgen _ w

/-! ## Lemmas on the title scan -/

theorem scan_eq_none_iff (n : String) (sheets : List Sheet) :
    SheetID.scan n sheets = none ↔ ∀ sheet ∈ sheets, sheet.Properties.Title ≠ n := by
  induction sheets with
  | nil => simp [SheetID.scan]
  | cons sh rest ih =>
    by_cases h : sh.Properties.Title = n
    · simp [SheetID.scan, h]
    · simp [SheetID.scan, h, ih]

theorem scan_first (n : String) (pre : List Sheet) (sheet : Sheet) (post : List Sheet)
    (hpre : ∀ p ∈ pre, p.Properties.Title ≠ n) (hsheet : sheet.Properties.Title = n) :
    SheetID.scan n (pre ++ sheet :: post) = some sheet.Properties.SheetId := by
  induction pre with
  | nil => simp [SheetID.scan, hsheet]
  | cons p rest ih =>
    have hp : p.Properties.Title ≠ n := hpre p (List.mem_cons_self _ _)
    have hrest : ∀ q ∈ rest, q.Properties.Title ≠ n :=
      fun q hq => hpre q (List.mem_cons_of_mem _ hq)
    simp [SheetID.scan, hp, ih hrest]

theorem SheetID_of_fetch {σ : Type} (s : SheetClient σ) (n : String) (w : World σ)
    (resp : Spreadsheet)
    (hfetch : (s.srv.spreadsheetsGet w.remote s.spreadsheetID).1 = Except.ok resp) :
    (s.SheetID n w).1 =
      match SheetID.scan n resp.Sheets with
      | some id => (id, none)
      | none => (0, some (GoError.errorf ("sheetName " ++ n ++ " is not found"))) := by
  simp only [SheetClient.SheetID, Service.DoSpreadsheetsGet, World.send, hfetch]
  cases SheetID.scan n resp.Sheets <;> rfl

/-! ## The claims -/

/-- C1: when the metadata fetch succeeds with a list of sheets, `SheetID n`
returns no error exactly when some sheet of the list has title `n`; it then
returns the id of the first such sheet in list order; and when no sheet has
title `n` (the empty list included) it returns id 0 with the locally built error
"sheetName n is not found". -/
theorem SheetID_spec {σ : Type} (s : SheetClient σ) (n : String) (w : World σ)
    (resp : Spreadsheet)
    (hfetch : (s.srv.spreadsheetsGet w.remote s.spreadsheetID).1 = Except.ok resp) :
    ((s.SheetID n w).1.2 = none ↔ ∃ sheet ∈ resp.Sheets, sheet.Properties.Title = n) ∧
    (∀ pre sheet post, resp.Sheets = pre ++ sheet :: post →
      (∀ p ∈ pre, p.Properties.Title ≠ n) → sheet.Properties.Title = n →
      (s.SheetID n w).1 = (sheet.Properties.SheetId, none)) ∧
    ((∀ sheet ∈ resp.Sheets, sheet.Properties.Title ≠ n) →
      (s.SheetID n w).1 =
        (0, some (GoError.errorf ("sheetName " ++ n ++ " is not found")))) := by
  have hrun := SheetID_of_fetch s n w resp hfetch
  refine ⟨?_, ?_, ?_⟩
  · rw [hrun]
    cases hscan : SheetID.scan n resp.Sheets with
    | none =>
      have hno := (scan_eq_none_iff n resp.Sheets).1 hscan
      simp only [false_iff, reduceCtorEq]
      rintro ⟨sheet, hmem, htitle⟩
      exact hno sheet hmem htitle
    | some id =>
      simp only [true_iff]
      by_contra hnone
      have hall : ∀ sheet ∈ resp.Sheets, sheet.Properties.Title ≠ n := by
        intro sheet hmem htitle
        exact hnone ⟨sheet, hmem, htitle⟩
      rw [(scan_eq_none_iff n resp.Sheets).2 hall] at hscan
      cases hscan
  · intro pre sheet post hsplit hpre hsheet
    rw [hrun, hsplit, scan_first n pre sheet post hpre hsheet]
  · intro hall
    rw [hrun, (scan_eq_none_iff n resp.Sheets).2 hall]

/-- C1 at the sheets "Sheet1", "Sheet2": "Sheet2" is found with its id, and
"Sheet3" is reported as not found. -/
theorem SheetID_spec_witness :
    (twoSheetsClient.SheetID "Sheet2" emptyWorld).1 = (7, none) ∧
    (twoSheetsClient.SheetID "Sheet3" emptyWorld).1 =
      (0, some (GoError.errorf "sheetName Sheet3 is not found")) :=
  ⟨(SheetID_spec twoSheetsClient "Sheet2" emptyWorld twoSheets rfl).2.1
      [{ Properties := { SheetId := 0, Title := "Sheet1", Index := 0 } }]
      { Properties := { SheetId := 7, Title := "Sheet2", Index := 1 } } [] rfl
      (by decide) rfl,
   (SheetID_spec twoSheetsClient "Sheet3" emptyWorld twoSheets rfl).2.2 (by decide)⟩

/-- C7: for every range string `r` and rows `vs`, `Update r vs` adds to the
trace exactly one request: a values update of the client's spreadsheet with
range `r`, a body whose only populated field is `Values = vs`, and the value
input option "USER_ENTERED". -/
theorem Update_request {σ : Type} (s : SheetClient σ) (r : String) (vs : Option (List Row))
    (w : World σ) :
    (s.Update r vs w).2.trace = w.trace ++
      [Event.Do (Call.ValuesUpdate s.spreadsheetID r
        { MajorDimension := "", Range := "", Values := vs } (some "USER_ENTERED"))] := by
  rw [(Update_run s r vs w).1]

/-- C4: for every grid range `r` and cell format `f`, `Format r f` adds to the
trace exactly one batch update of the client's spreadsheet, holding exactly one
request: a RepeatCell with range `r`, a cell whose only populated field is the
user-entered format `f`, and the field mask "userEnteredFormat(backgroundColor)",
a constant that does not depend on `f`. -/
theorem Format_request {σ : Type} (s : SheetClient σ) (r : Option GridRange)
    (f : Option CellFormat) (w : World σ) :
    (s.Format r f w).2.trace = w.trace ++
      [Event.Do (Call.BatchUpdate s.spreadsheetID
        { Requests := [
            { RepeatCell := some
                { Cell := some { UserEnteredFormat := f, DataValidation := none, Note := "" }
                  Fields := "userEnteredFormat(backgroundColor)"
                  Range := r }
              SetDataValidation := none } ] })] := by
  rw [(Format_run s r f w).1]
  rfl

/-- C5: for every grid range `r` and list of strings `vs`, `List r vs` adds to
the trace exactly one batch update holding exactly one RepeatCell request with
range `r`, field mask "dataValidation", and a validation rule of condition type
"ONE_OF_LIST" with `Strict` and `ShowCustomUi` set; its condition values are the
strings of `vs` in order, one value each, nothing added or dropped. -/
theorem List_request {σ : Type} (s : SheetClient σ) (r : Option GridRange) (vs : List String)
    (w : World σ) :
    (s.List r vs w).2.trace = w.trace ++
      [Event.Do (Call.BatchUpdate s.spreadsheetID
        { Requests := [
            { RepeatCell := some
                { Cell := some
                    { UserEnteredFormat := none
                      DataValidation := some
                        { Condition := some
                            { Type_ := "ONE_OF_LIST", Values := ListConditionValues vs }
                          InputMessage := ""
                          ShowCustomUi := true
                          Strict := true }
                      Note := "" }
                  Fields := "dataValidation"
                  Range := r }
              SetDataValidation := none } ] })] ∧
    (ListConditionValues vs).length = vs.length ∧
    (∀ i : Nat, (ListConditionValues vs)[i]? =
      (vs[i]?).map (fun v => { RelativeDate := "", UserEnteredValue := v })) ∧
    (ListConditionValues vs).map (fun c => c.UserEnteredValue) = vs ∧
    ListConditionValues [] = [] ∧
    ListConditionValues ["○", "×"] =
      [{ RelativeDate := "", UserEnteredValue := "○" },
       { RelativeDate := "", UserEnteredValue := "×" }] := by
  refine ⟨?_, ?_, ?_, ?_, rfl, rfl⟩
  · rw [(List_run s r vs w).1]
    rfl
  · simp [conditionValues_eq_map]
  · intro i
    simp [conditionValues_eq_map]
  · simp [conditionValues_eq_map, Function.comp_def]

/-- C6: for every list of rows `vs`, `Append vs` adds to the trace exactly one
values append of the client's spreadsheet, with target range the literal
"シート1", body `Values = vs`, value input option "USER_ENTERED" and insert data
option "INSERT_ROWS".  On a remote that obeys `InsertRowsLaw`, a successful
append of `rows` leaves the rows that were there followed by `rows`; for the
single row ["x"] on a sheet of N rows that is N+1 rows, the last one ["x"], the
first N unchanged. -/
theorem Append_request {σ : Type} (s : SheetClient σ) (vs : Option (List Row)) (w : World σ) :
    (s.Append vs w).2.trace = w.trace ++
      [Event.Do (Call.ValuesAppend s.spreadsheetID "シート1"
        { MajorDimension := "", Range := "", Values := vs }
        (some "USER_ENTERED") (some "INSERT_ROWS"))] ∧
    (∀ rowsOf : σ → String → String → List Row, InsertRowsLaw s.srv rowsOf →
      (s.Append vs w).1 = none →
      rowsOf (s.Append vs w).2.remote s.spreadsheetID "シート1" =
        rowsOf w.remote s.spreadsheetID "シート1" ++ vs.getD []) ∧
    (∀ rowsOf : σ → String → String → List Row, InsertRowsLaw s.srv rowsOf →
      (s.Append (some [[Iface.str "x"]]) w).1 = none →
      (rowsOf (s.Append (some [[Iface.str "x"]]) w).2.remote s.spreadsheetID "シート1").length =
        (rowsOf w.remote s.spreadsheetID "シート1").length + 1 ∧
      (rowsOf (s.Append (some [[Iface.str "x"]]) w).2.remote s.spreadsheetID "シート1").getLast? =
        some [Iface.str "x"] ∧
      (rowsOf (s.Append (some [[Iface.str "x"]]) w).2.remote s.spreadsheetID "シート1").take
        (rowsOf w.remote s.spreadsheetID "シート1").length =
        rowsOf w.remote s.spreadsheetID "シート1") := by
  have hrows : ∀ (rows : Option (List Row)) (rowsOf : σ → String → String → List Row),
      InsertRowsLaw s.srv rowsOf → (s.Append rows w).1 = none →
      rowsOf (s.Append rows w).2.remote s.spreadsheetID "シート1" =
        rowsOf w.remote s.spreadsheetID "シート1" ++ rows.getD [] := by
    intro rows rowsOf hlaw hok
    have hrun := Append_run s rows w
    rw [hrun.1]
    apply hlaw
    rw [hrun.2] at hok
    cases hcall : (s.srv.valuesAppend w.remote s.spreadsheetID "シート1" { Values := rows }
        (some "USER_ENTERED") (some "INSERT_ROWS")).1 with
    | error err => rw [hcall] at hok; cases hok
    | ok u => rfl
  refine ⟨?_, hrows vs, ?_⟩
  · rw [(Append_run s vs w).1]
  · intro rowsOf hlaw hok
    rw [hrows _ rowsOf hlaw hok]
    simp

/-- C6 on the keyed store: a sheet "シート1" holding the rows ["a"], ["b"]
holds ["a"], ["b"], ["x"] after `Append [["x"]]`. -/
theorem Append_request_witness :
    keyedRows (keyedClient.Append (some [[Iface.str "x"]]) keyedWorld).2.remote "book" "シート1" =
      [[Iface.str "a"], [Iface.str "b"]] ++ [[Iface.str "x"]] :=
  (Append_request keyedClient (some [[Iface.str "x"]]) keyedWorld).2.1 keyedRows
    keyedStore_insertRows rfl

/-- C3: each of `Get`, `Update`, `Append`, `Format`, `List` and `SheetID`
hands back the error of its one remote call as it is (with a nil row list for
`Get` and id 0 for `SheetID`); `Get`, `Update`, `Append`, `Format` and `List`
return an error only when it is the error of that call, and `Update`, `Append`,
`Format` and `List` return no error exactly when the call succeeds; `SheetID`
can return an error although its remote call succeeded. -/
theorem remote_error_verbatim {σ : Type} (s : SheetClient σ) (w : World σ) (e : GoError) :
    (∀ r, (s.srv.valuesGet w.remote s.spreadsheetID r).1 = Except.error e →
      (s.Get r w).1 = (none, some e)) ∧
    (∀ r, (s.Get r w).1.2 = some e →
      (s.srv.valuesGet w.remote s.spreadsheetID r).1 = Except.error e) ∧
    (∀ n, (s.srv.spreadsheetsGet w.remote s.spreadsheetID).1 = Except.error e →
      (s.SheetID n w).1 = (0, some e)) ∧
    (∀ r vs, ((s.Update r vs w).1 = some e ↔
        (s.srv.valuesUpdate w.remote s.spreadsheetID r { Values := vs }
          (some "USER_ENTERED")).1 = Except.error e) ∧
      ((s.Update r vs w).1 = none ↔
        (s.srv.valuesUpdate w.remote s.spreadsheetID r { Values := vs }
          (some "USER_ENTERED")).1 = Except.ok ())) ∧
    (∀ vs, ((s.Append vs w).1 = some e ↔
        (s.srv.valuesAppend w.remote s.spreadsheetID "シート1" { Values := vs }
          (some "USER_ENTERED") (some "INSERT_ROWS")).1 = Except.error e) ∧
      ((s.Append vs w).1 = none ↔
        (s.srv.valuesAppend w.remote s.spreadsheetID "シート1" { Values := vs }
          (some "USER_ENTERED") (some "INSERT_ROWS")).1 = Except.ok ())) ∧
    (∀ r f, ((s.Format r f w).1 = some e ↔
        (s.srv.batchUpdate w.remote s.spreadsheetID (formatBody r f)).1 = Except.error e) ∧
      ((s.Format r f w).1 = none ↔
        (s.srv.batchUpdate w.remote s.spreadsheetID (formatBody r f)).1 = Except.ok ())) ∧
    (∀ r vs, ((s.List r vs w).1 = some e ↔
        (s.srv.batchUpdate w.remote s.spreadsheetID
          (listBody r (ListConditionValues vs))).1 = Except.error e) ∧
      ((s.List r vs w).1 = none ↔
        (s.srv.batchUpdate w.remote s.spreadsheetID
          (listBody r (ListConditionValues vs))).1 = Except.ok ())) ∧
    (∃ (c : SheetClient Unit) (n : String) (v : World Unit) (err : GoError) (resp : Spreadsheet),
      (c.SheetID n v).1.2 = some err ∧
      (c.srv.spreadsheetsGet v.remote c.spreadsheetID).1 = Except.ok resp) := by
  refine ⟨?_, ?_, ?_, ?_, ?_, ?_, ?_, ?_⟩
  · intro r h
    rw [(Get_run s r w).2, h]
  · intro r h
    rw [(Get_run s r w).2] at h
    cases hcall : (s.srv.valuesGet w.remote s.spreadsheetID r).1 with
    | error err => rw [hcall] at h; simp at h; rw [h]
    | ok resp => rw [hcall] at h; simp at h
  · intro n h
    rw [(SheetID_run s n w).2, h]
  · intro r vs
    rw [(Update_run s r vs w).2]
    cases (s.srv.valuesUpdate w.remote s.spreadsheetID r { Values := vs }
      (some "USER_ENTERED")).1 <;> simp
  · intro vs
    rw [(Append_run s vs w).2]
    cases (s.srv.valuesAppend w.remote s.spreadsheetID "シート1" { Values := vs }
      (some "USER_ENTERED") (some "INSERT_ROWS")).1 <;> simp
  · intro r f
    rw [(Format_run s r f w).2]
    cases (s.srv.batchUpdate w.remote s.spreadsheetID (formatBody r f)).1 <;> simp
  · intro r vs
    rw [(List_run s r vs w).2]
    cases (s.srv.batchUpdate w.remote s.spreadsheetID
      (listBody r (ListConditionValues vs))).1 <;> simp
  · exact ⟨twoSheetsClient, "Sheet3", emptyWorld,
      GoError.errorf "sheetName Sheet3 is not found", twoSheets, rfl, rfl⟩

/-- C3 on a remote whose values get is refused: `Get` returns the nil row list
and that very error. -/
theorem remote_error_verbatim_witness :
    (SheetClient.Get { srv := getFailsService, spreadsheetID := "book" } "A1" emptyWorld).1 =
      (none, some (GoError.external "values get refused")) :=
  (remote_error_verbatim { srv := getFailsService, spreadsheetID := "book" } emptyWorld
    (GoError.external "values get refused")).1 "A1" rfl

/-- C8: `Get r` returns the rows of the remote response as they are, whatever
the response holds; and on a remote that obeys `StoreLaw`, for every range
string `r` and rows `vs`, a `Get r` that follows a successful `Update r vs`
returns exactly `vs`, rows and columns in the order written.  Hence the round
trip: if `Get r` returns `vs` and `Update r vs` then succeeds, a following
`Get r` returns `vs` again, the same result as the first `Get`. -/
theorem Get_Update_Get {σ : Type} (s : SheetClient σ) (hstore : StoreLaw s.srv) :
    (∀ (r : String) (w : World σ) (resp : ValueRange),
      (s.srv.valuesGet w.remote s.spreadsheetID r).1 = Except.ok resp →
      (s.Get r w).1 = (resp.Values, none)) ∧
    (∀ (r : String) (vs : Option (List Row)) (w : World σ),
      (s.Update r vs w).1 = none →
      (s.Get r (s.Update r vs w).2).1 = (vs, none)) ∧
    (∀ (r : String) (w : World σ) (vs : Option (List Row)),
      (s.Get r w).1 = (vs, none) →
      (s.Update r vs (s.Get r w).2).1 = none →
      (s.Get r (s.Update r vs (s.Get r w).2).2).1 = (vs, none) ∧
      (s.Get r (s.Update r vs (s.Get r w).2).2).1 = (s.Get r w).1) := by
  have hread : ∀ (r : String) (w : World σ) (resp : ValueRange),
      (s.srv.valuesGet w.remote s.spreadsheetID r).1 = Except.ok resp →
      (s.Get r w).1 = (resp.Values, none) := by
    intro r w resp hresp
    rw [(Get_run s r w).2, hresp]
  have hwrite : ∀ (r : String) (vs : Option (List Row)) (w : World σ),
      (s.Update r vs w).1 = none →
      (s.Get r (s.Update r vs w).2).1 = (vs, none) := by
    intro r vs w hupdate
    have hrun := Update_run s r vs w
    rw [hrun.2] at hupdate
    have hok : (s.srv.valuesUpdate w.remote s.spreadsheetID r { Values := vs }
        (some "USER_ENTERED")).1 = Except.ok () := by
      cases hcall : (s.srv.valuesUpdate w.remote s.spreadsheetID r { Values := vs }
          (some "USER_ENTERED")).1 with
      | error err => rw [hcall] at hupdate; cases hupdate
      | ok u => rfl
    obtain ⟨resp, hresp, hvalues⟩ := hstore _ _ _ _ _ hok
    have hsecond := hread r (s.Update r vs w).2 resp (by rw [hrun.1]; exact hresp)
    rw [hsecond, hvalues]
  refine ⟨hread, hwrite, ?_⟩
  intro r w vs hget hupdate
  rw [hget, and_self]
  exact hwrite r vs (s.Get r w).2 hupdate

/-- C8 on the keyed store: reading "シート1" returns the two rows held there,
writing them back and reading again returns the same two rows, and rows of
unequal length written to "A1" are read back in the order written. -/
theorem Get_Update_Get_witness :
    (keyedClient.Get "シート1" keyedWorld).1 =
      (some [[Iface.str "a"], [Iface.str "b"]], none) ∧
    (keyedClient.Get "シート1"
      (keyedClient.Update "シート1" (some [[Iface.str "a"], [Iface.str "b"]])
        (keyedClient.Get "シート1" keyedWorld).2).2).1 =
      (some [[Iface.str "a"], [Iface.str "b"]], none) ∧
    (keyedClient.Get "A1"
      (keyedClient.Update "A1"
        (some [[Iface.str "x", Iface.str "y"], [Iface.str "z"], [Iface.str "x"]])
        keyedWorld).2).1 =
      (some [[Iface.str "x", Iface.str "y"], [Iface.str "z"], [Iface.str "x"]], none) :=
  ⟨(Get_Update_Get keyedClient keyedStore_store).1 "シート1" keyedWorld
      { Range := "シート1", Values := some [[Iface.str "a"], [Iface.str "b"]] } rfl,
   ((Get_Update_Get keyedClient keyedStore_store).2.2 "シート1" keyedWorld
      (some [[Iface.str "a"], [Iface.str "b"]]) rfl rfl).1,
   (Get_Update_Get keyedClient keyedStore_store).2.1 "A1"
      (some [[Iface.str "x", Iface.str "y"], [Iface.str "z"], [Iface.str "x"]])
      keyedWorld rfl⟩

/-- C9: if reading "secret.json" fails, or parsing its bytes as a
service-account configuration fails, `NewSheetClient` returns no client and
that error, having opened no session (the trace ends before any `SheetsNew`);
it never touches the remote; and it returns a client only when reading,
parsing and opening the session all succeeded, the client then holding that
session and the spreadsheet identifier given. -/
theorem NewSheetClient_spec {σ : Type} (env : Env σ) (id : String) (w : World σ) :
    (∀ e, env.ReadFile "secret.json" = Except.error e →
      NewSheetClient env id w =
        ((none, some e),
         { remote := w.remote, trace := w.trace ++ [Event.ReadFile "secret.json"] })) ∧
    (∀ b e, env.ReadFile "secret.json" = Except.ok b →
      env.JWTConfigFromJSON b ["https://www.googleapis.com/auth/spreadsheets"] =
        Except.error e →
      NewSheetClient env id w =
        ((none, some e),
         { remote := w.remote
           trace := w.trace ++
             [Event.ReadFile "secret.json",
              Event.JWTConfigFromJSON b ["https://www.googleapis.com/auth/spreadsheets"]] })) ∧
    ((NewSheetClient env id w).2.remote = w.remote ∧
      ∀ c, Event.Do c ∈ (NewSheetClient env id w).2.trace → Event.Do c ∈ w.trace) ∧
    (∀ client, (NewSheetClient env id w).1.1 = some client →
      client.spreadsheetID = id ∧ (NewSheetClient env id w).1.2 = none ∧
      ∃ b jwt, env.ReadFile "secret.json" = Except.ok b ∧
        env.JWTConfigFromJSON b ["https://www.googleapis.com/auth/spreadsheets"] =
          Except.ok jwt ∧
        env.sheetsNew jwt.Client = Except.ok client.srv) := by
  refine ⟨?_, ?_, ?_, ?_⟩
  · intro e hread
    simp [NewSheetClient, hread, World.emit]
  · intro b e hread hjwt
    simp [NewSheetClient, hread, hjwt, World.emit]
  · unfold NewSheetClient
    cases hread : env.ReadFile "secret.json" with
    | error err => simp [World.emit]
    | ok b =>
      cases hjwt : env.JWTConfigFromJSON b ["https://www.googleapis.com/auth/spreadsheets"] with
      | error err => simp [World.emit, hjwt]
      | ok jwt => cases hsrv : env.sheetsNew jwt.Client <;> simp [World.emit, hjwt, hsrv]
  · intro client hnew
    obtain ⟨b, jwt, hread, hjwt, hsrv, hid, herr, _⟩ := NewSheetClient_client env id w client hnew
    exact ⟨hid, herr, b, jwt, hread, hjwt, hsrv⟩

/-- C9 without a credential file: no client, the error of the read, and a
trace that holds the read alone. -/
theorem NewSheetClient_spec_witness :
    NewSheetClient noSecretEnv "book" emptyWorld =
      ((none, some (GoError.external "open secret.json: no such file or directory")),
       { remote := (), trace := [] ++ [Event.ReadFile "secret.json"] }) :=
  (NewSheetClient_spec noSecretEnv "book" emptyWorld).1 _ rfl

/-- C2 at a remote whose values get is refused: the `Get` call of `main` returns
an error, and `main` neither panics nor stops; it goes on to send the
validation request and returns. -/
theorem main_ignores_Get_error :
    (∀ v : World Unit,
      (SheetClient.Get { srv := getFailsService, spreadsheetID := "book" }
        "'シート1'!A1:B1" v).1 = (none, some (GoError.external "values get refused"))) ∧
    main (readyEnv getFailsService) emptyWorld =
      (none,
       { remote := ()
         trace :=
          [Event.ReadFile "secret.json",
           Event.JWTConfigFromJSON [123, 125] ["https://www.googleapis.com/auth/spreadsheets"],
           Event.SheetsNew
             { config :=
                { PrivateKey := [123, 125]
                  Scopes := ["https://www.googleapis.com/auth/spreadsheets"] } },
           Event.Do (Call.SpreadsheetsGet "book"),
           Event.Do (Call.ValuesUpdate "book" "A1"
             { Values := some
                [[Iface.str "aaa", Iface.str "bbb"], [Iface.str "ccc", Iface.str "ddd"]] }
             (some "USER_ENTERED")),
           Event.Do (Call.ValuesAppend "book" "シート1" { Values := some [[Iface.str "1"]] }
             (some "USER_ENTERED") (some "INSERT_ROWS")),
           Event.Do (Call.BatchUpdate "book"
             (formatBody (some (mainRange 0)) (some { BackgroundColor := some { Red := 1 } }))),
           Event.Do (Call.ValuesGet "book" "'シート1'!A1:B1"),
           Event.Do (Call.BatchUpdate "book"
             (listBody (some (mainRange 0))
               [{ UserEnteredValue := "○" }, { UserEnteredValue := "×" }]))] }) :=
  ⟨fun _ => rfl, rfl⟩

/-- C10: when every call of `main` succeeds (the client is built, the lookup of
"シート1" returns `sheetID`, the update, the append and the format request go
through, the get returns `values`, the validation request goes through), `main`
returns without a panic; the client is for the identifier of the environment
and was built without any remote request; and after the set-up the trace holds
exactly: the metadata get, the update of "A1" with the 2x2 block, the append of
the row ["1"], the format request with background red 1, the get of
"'シート1'!A1:B1", one print for each row of `values` in order, and the
validation request with "○", "×"; both batch updates carry the range rows 2..4,
columns 1..3 on `sheetID`. -/
theorem main_sequence {σ : Type} (env : Env σ) (w : World σ) (client : SheetClient σ)
    (w1 w2 w3 w4 w5 w6 w7 : World σ) (sheetID : Int) (values : Option (List Row))
    (hN : NewSheetClient env (env.Getenv "SPREAD_SHEET_ID") w = ((some client, none), w1))
    (hS : client.SheetID "シート1" w1 = ((sheetID, none), w2))
    (hU : client.Update "A1"
      (some [[Iface.str "aaa", Iface.str "bbb"], [Iface.str "ccc", Iface.str "ddd"]]) w2 =
        (none, w3))
    (hA : client.Append (some [[Iface.str "1"]]) w3 = (none, w4))
    (hF : client.Format
      (some { SheetId := sheetID, StartRowIndex := 2, EndRowIndex := 4,
              StartColumnIndex := 1, EndColumnIndex := 3 })
      (some { BackgroundColor := some { Red := 1 } }) w4 = (none, w5))
    (hG : client.Get "'シート1'!A1:B1" w5 = ((values, none), w6))
    (hL : client.List
      (some { SheetId := sheetID, StartRowIndex := 2, EndRowIndex := 4,
              StartColumnIndex := 1, EndColumnIndex := 3 })
      ["○", "×"] (printRows values w6) = (none, w7)) :
    main env w = (none, w7) ∧
    client.spreadsheetID = env.Getenv "SPREAD_SHEET_ID" ∧
    (∀ c, Event.Do c ∈ w1.trace → Event.Do c ∈ w.trace) ∧
    w7.trace = w1.trace ++
      [Event.Do (Call.SpreadsheetsGet client.spreadsheetID),
       Event.Do (Call.ValuesUpdate client.spreadsheetID "A1"
         { Values := some
            [[Iface.str "aaa", Iface.str "bbb"], [Iface.str "ccc", Iface.str "ddd"]] }
         (some "USER_ENTERED")),
       Event.Do (Call.ValuesAppend client.spreadsheetID "シート1"
         { Values := some [[Iface.str "1"]] } (some "USER_ENTERED") (some "INSERT_ROWS")),
       Event.Do (Call.BatchUpdate client.spreadsheetID
         (formatBody
           (some { SheetId := sheetID, StartRowIndex := 2, EndRowIndex := 4,
                   StartColumnIndex := 1, EndColumnIndex := 3 })
           (some { BackgroundColor := some { Red := 1 } }))),
       Event.Do (Call.ValuesGet client.spreadsheetID "'シート1'!A1:B1")] ++
      (values.getD []).map Event.Println ++
      [Event.Do (Call.BatchUpdate client.spreadsheetID
        (listBody
          (some { SheetId := sheetID, StartRowIndex := 2, EndRowIndex := 4,
                  StartColumnIndex := 1, EndColumnIndex := 3 })
          [{ UserEnteredValue := "○" }, { UserEnteredValue := "×" }]))] := by
  have hmain : main env w = (none, w7) := by
    simp [main, hN, hS, hU, hA, mainRange, hF, hG, hL]
  obtain ⟨b, jwt, _, _, _, hid, _, hw1⟩ :=
    NewSheetClient_client env (env.Getenv "SPREAD_SHEET_ID") w client (by rw [hN])
  rw [hN] at hw1
  have hw1eq : w1.trace = w.trace ++
      [Event.ReadFile "secret.json",
       Event.JWTConfigFromJSON b ["https://www.googleapis.com/auth/spreadsheets"],
       Event.SheetsNew jwt.Client] := congrArg World.trace hw1
  have hw2 : w2 = (client.SheetID "シート1" w1).2 := by rw [hS]
  have hw3 : w3 = (client.Update "A1"
    (some [[Iface.str "aaa", Iface.str "bbb"], [Iface.str "ccc", Iface.str "ddd"]]) w2).2 := by
    rw [hU]
  have hw4 : w4 = (client.Append (some [[Iface.str "1"]]) w3).2 := by rw [hA]
  have hw5 : w5 = (client.Format
    (some { SheetId := sheetID, StartRowIndex := 2, EndRowIndex := 4,
            StartColumnIndex := 1, EndColumnIndex := 3 })
    (some { BackgroundColor := some { Red := 1 } }) w4).2 := by rw [hF]
  have hw6 : w6 = (client.Get "'シート1'!A1:B1" w5).2 := by rw [hG]
  have hw7 : w7 = (client.List
    (some { SheetId := sheetID, StartRowIndex := 2, EndRowIndex := 4,
            StartColumnIndex := 1, EndColumnIndex := 3 })
    ["○", "×"] (printRows values w6)).2 := by rw [hL]
  rw [(SheetID_run client "シート1" w1).1] at hw2
  rw [(Update_run client "A1" _ w2).1] at hw3
  rw [(Append_run client _ w3).1] at hw4
  rw [(Format_run client _ _ w4).1] at hw5
  rw [(Get_run client _ w5).1] at hw6
  rw [(List_run client _ _ _).1, printRows_run] at hw7
  refine ⟨hmain, hid, ?_, ?_⟩
  · intro c hc
    rw [hw1eq] at hc
    simpa using hc
  · rw [hw7, hw6, hw5, hw4, hw3, hw2]
    simp [ListConditionValues]

/-- C10 on a remote where every call succeeds and the get answers the row
["aaa", "bbb"]: the run ends without a panic, its trace being the set-up, the
five first requests, the print of that row and the validation request. -/
theorem main_sequence_witness :
    main (readyEnv allOkService) emptyWorld =
      (none,
       { remote := ()
         trace :=
          [Event.ReadFile "secret.json",
           Event.JWTConfigFromJSON [123, 125] ["https://www.googleapis.com/auth/spreadsheets"],
           Event.SheetsNew
             { config :=
                { PrivateKey := [123, 125]
                  Scopes := ["https://www.googleapis.com/auth/spreadsheets"] } },
           Event.Do (Call.SpreadsheetsGet "book"),
           Event.Do (Call.ValuesUpdate "book" "A1"
             { Values := some
                [[Iface.str "aaa", Iface.str "bbb"], [Iface.str "ccc", Iface.str "ddd"]] }
             (some "USER_ENTERED")),
           Event.Do (Call.ValuesAppend "book" "シート1" { Values := some [[Iface.str "1"]] }
             (some "USER_ENTERED") (some "INSERT_ROWS")),
           Event.Do (Call.BatchUpdate "book"
             (formatBody (some (mainRange 0)) (some { BackgroundColor := some { Red := 1 } }))),
           Event.Do (Call.ValuesGet "book" "'シート1'!A1:B1"),
           Event.Println [Iface.str "aaa", Iface.str "bbb"],
           Event.Do (Call.BatchUpdate "book"
             (listBody (some (mainRange 0))
               [{ UserEnteredValue := "○" }, { UserEnteredValue := "×" }]))] }) :=
  (main_sequence (readyEnv allOkService) emptyWorld
    { srv := allOkService, spreadsheetID := "book" } _ _ _ _ _ _ _ 0
    (some [[Iface.str "aaa", Iface.str "bbb"]]) rfl rfl rfl rfl rfl rfl rfl).1

end SheetApi
